import Mathlib

/-!
Verification of the RGB LED status / effect engine of the esp-mqtt-telegram
firmware (src/esp-app/main).  The definitions below are a shallow embedding of
the C sources, translated function by function:

* rgb_led_manager.c : color math (apply_brightness, rgb_led_hsv_to_rgb,
  rgb_led_blend_colors), the effect controller (rgb_led_start_effect,
  rgb_led_stop_effect, rgb_led_set_status, rgb_led_set_brightness, ...) and the
  renderer loop (effect_task).
* esp-app.c : update_system_status_led (coarse status composition).
* mqtt_client.c / relay_control.c : the MQTT_EVENT_DATA relay-command path.

Machine integers are modelled as Nat; every store into a uint8_t variable is
written with an explicit % 256 (all of these are provably no-ops for in-range
inputs, but they mirror the C truncation).  FreeRTOS state (the strip handle,
the task handle, the running flag, the shared config, the global brightness,
and the single physical pixel) is an explicit record, and the renderer loop is
a fuel-indexed recursion; a fuel-exhausted run returns a flag saying the loop
was cut short, so theorems about loop exits quantify only over genuine exits.
-/

namespace EspMqtt

/-- RGB color, three 8-bit channels (rgb_color_t in rgb_led_manager.h). -/
structure RgbColor where
  red : Nat
  green : Nat
  blue : Nat
deriving DecidableEq, Repr

/-- Channels of a uint8_t-typed C color are at most 255. -/
def ColorInRange (c : RgbColor) : Prop :=
  c.red ≤ 255 ∧ c.green ≤ 255 ∧ c.blue ≤ 255

instance (c : RgbColor) : Decidable (ColorInRange c) := by
  unfold ColorInRange; infer_instance

def RGB_COLOR_OFF : RgbColor := ⟨0, 0, 0⟩
def RGB_COLOR_RED : RgbColor := ⟨255, 0, 0⟩
def RGB_COLOR_GREEN : RgbColor := ⟨0, 255, 0⟩
def RGB_COLOR_BLUE : RgbColor := ⟨0, 0, 255⟩
def RGB_COLOR_YELLOW : RgbColor := ⟨255, 255, 0⟩
def RGB_COLOR_CYAN : RgbColor := ⟨0, 255, 255⟩

/-- Effect kind indices (rgb_effect_t); a C enum is an int, so out-of-range
indices are representable, which matters for claim C2. -/
def RGB_EFFECT_SOLID : Nat := 0
def RGB_EFFECT_BLINK : Nat := 1
def RGB_EFFECT_BREATHE : Nat := 2
def RGB_EFFECT_RAINBOW : Nat := 3
def RGB_EFFECT_RAINBOW_CHASE : Nat := 4
def RGB_EFFECT_PULSE : Nat := 5
def RGB_EFFECT_STROBE : Nat := 6
def RGB_EFFECT_FADE_IN_OUT : Nat := 7
def RGB_EFFECT_COLOR_WIPE : Nat := 8
def RGB_EFFECT_THEATER_CHASE : Nat := 9
def RGB_EFFECT_FIRE : Nat := 10
def RGB_EFFECT_SPARKLE : Nat := 11
def RGB_EFFECT_MAX : Nat := 12

/-- Effect configuration (rgb_effect_config_t).  The C field named repeat is
called repeatFlag here because repeat is a Lean keyword. -/
structure RgbEffectConfig where
  effect : Nat
  primary_color : RgbColor
  secondary_color : RgbColor
  speed_ms : Nat
  brightness : Nat
  repeatFlag : Bool
deriving DecidableEq, Repr

/-- ESP-IDF error codes used by this module. -/
inductive EspErr where
  | ok
  | invalidState
  | invalidArg
  | noMem
deriving DecidableEq, Repr

/-- Coarse status enumeration (rgb_status_t). -/
inductive RgbStatus where
  | disconnected
  | connecting
  | wifiConnected
  | mqttConnected
  | mqttRelayOn
  | mqttRelayOff
  | error
  | custom
deriving DecidableEq, Repr

/-- MQTT session state (mqtt_state_t in mqtt_manager.h). -/
inductive MqttState where
  | disconnected
  | connecting
  | connected
  | error
deriving DecidableEq, Repr

/-- Relay state (relay_state_t in relay_control.h). -/
inductive RelayState where
  | off
  | on
deriving DecidableEq, Repr

/-- apply_brightness (rgb_led_manager.c lines 360-367): brightness 255 is an
identity fast path, otherwise each uint8_t channel becomes
channel * brightness / 255. -/
def apply_brightness (c : RgbColor) (brightness : Nat) : RgbColor :=
  if brightness = 255 then c
  else
    { red := c.red * brightness / 255 % 256
      green := c.green * brightness / 255 % 256
      blue := c.blue * brightness / 255 % 256 }

/-- rgb_led_hsv_to_rgb (rgb_led_manager.c lines 299-337).  region and
remainder are uint8_t stores, hence the % 256; the shift by 8 is / 256.
For hue below 360 the region ranges over 0..8; the C switch only
distinguishes 0..4, everything else lands in the default branch. -/
def rgb_led_hsv_to_rgb (hue saturation value : Nat) : RgbColor :=
  if saturation = 0 then ⟨value, value, value⟩
  else
    let region := hue / 43 % 256
    let remainder := (hue - region * 43) * 6 % 256
    let p := value * (255 - saturation) / 256 % 256
    let q := value * (255 - saturation * remainder / 256) / 256 % 256
    let t := value * (255 - saturation * (255 - remainder) / 256) / 256 % 256
    match region with
    | 0 => ⟨value, t, p⟩
    | 1 => ⟨q, value, p⟩
    | 2 => ⟨p, value, t⟩
    | 3 => ⟨p, q, value⟩
    | 4 => ⟨t, p, value⟩
    | _ => ⟨value, p, q⟩

/-- rgb_led_blend_colors (rgb_led_manager.c lines 339-346): per-channel
integer interpolation, result stored into uint8_t fields. -/
def rgb_led_blend_colors (color1 color2 : RgbColor) (blend_factor : Nat) : RgbColor :=
  { red := (color1.red * (255 - blend_factor) + color2.red * blend_factor) / 255 % 256
    green := (color1.green * (255 - blend_factor) + color2.green * blend_factor) / 255 % 256
    blue := (color1.blue * (255 - blend_factor) + color2.blue * blend_factor) / 255 % 256 }

/-- Module-level mutable state of rgb_led_manager.c: the strip handle and task
handle are modelled by presence flags, stripColor is the color currently on
the single physical pixel (index 0). -/
structure ManagerState where
  ledStrip : Bool
  effectTaskHandle : Bool
  effectRunning : Bool
  currentEffectConfig : RgbEffectConfig
  globalBrightness : Nat
  stripColor : RgbColor
deriving DecidableEq, Repr

/-- rgb_led_set_color (lines 103-119): rejected with ESP_ERR_INVALID_STATE
when the strip handle is NULL; otherwise writes the color scaled by the
global brightness.  The led_strip driver calls are external and modelled as
succeeding. -/
def rgb_led_set_color (c : RgbColor) (s : ManagerState) : ManagerState × EspErr :=
  if s.ledStrip = false then (s, EspErr.invalidState)
  else ({ s with stripColor := apply_brightness c s.globalBrightness }, EspErr.ok)

/-- rgb_led_set_color_brightness (lines 121-137): like set_color but with an
explicit brightness argument instead of the global one. -/
def rgb_led_set_color_brightness (c : RgbColor) (brightness : Nat) (s : ManagerState) :
    ManagerState × EspErr :=
  if s.ledStrip = false then (s, EspErr.invalidState)
  else ({ s with stripColor := apply_brightness c brightness }, EspErr.ok)

/-- rgb_led_off (lines 139-142). -/
def rgb_led_off (s : ManagerState) : ManagerState × EspErr :=
  rgb_led_set_color RGB_COLOR_OFF s

/-- rgb_led_set_brightness (lines 348-352): unconditionally stores the global
brightness and returns ESP_OK, with no peripheral check. -/
def rgb_led_set_brightness (brightness : Nat) (s : ManagerState) : ManagerState × EspErr :=
  ({ s with globalBrightness := brightness }, EspErr.ok)

/-- Exit epilogue of effect_task (lines 514-518): clear the pixel and mark
the task handle absent.  led_strip_clear touches the pixel only when a strip
exists. -/
def task_natural_exit (s : ManagerState) : ManagerState :=
  { s with effectTaskHandle := false
           stripColor := if s.ledStrip then RGB_COLOR_OFF else s.stripColor }

/-- rgb_led_stop_effect (lines 181-206).  The bounded 500 ms wait for the
task to exit on its own is concurrency; the taskExits parameter records
whether the renderer reaches its exit path during that wait (in which case
it runs its own epilogue), after which any still-present handle is force
deleted and the strip is cleared. -/
def rgb_led_stop_effect (taskExits : Bool) (s : ManagerState) : ManagerState × EspErr :=
  if s.effectTaskHandle then
    let s1 := { s with effectRunning := false }
    let s2 := if taskExits then task_natural_exit s1 else s1
    let s3 := if s2.effectTaskHandle then { s2 with effectTaskHandle := false } else s2
    let s4 := if s3.ledStrip then { s3 with stripColor := RGB_COLOR_OFF } else s3
    (s4, EspErr.ok)
  else (s, EspErr.ok)

/-- rgb_led_start_effect (lines 144-179).  A NULL config pointer is modelled
by none.  Both failure checks precede the stop of the previous effect, so a
failing call leaves the state untouched.  spawnOk records whether
xTaskCreate succeeds. -/
def rgb_led_start_effect (spawnOk taskExits : Bool) (config : Option RgbEffectConfig)
    (s : ManagerState) : ManagerState × EspErr :=
  match config with
  | none => (s, EspErr.invalidArg)
  | some c =>
    if s.ledStrip = false then (s, EspErr.invalidArg)
    else
      let s1 := (rgb_led_stop_effect taskExits s).1
      let s2 := { s1 with currentEffectConfig := c, effectRunning := true }
      if spawnOk then ({ s2 with effectTaskHandle := true }, EspErr.ok)
      else ({ s2 with effectRunning := false }, EspErr.noMem)

/-- Status-to-config table of rgb_led_set_status (lines 208-270); the default
switch branch (RGB_STATUS_CUSTOM and out-of-range) yields none, which the
caller turns into ESP_ERR_INVALID_ARG.  Unset fields of the zero-initialized
C struct are 0 / false / the off color. -/
def status_effect_config (st : RgbStatus) : Option RgbEffectConfig :=
  match st with
  | RgbStatus.disconnected => some
      { effect := RGB_EFFECT_SOLID, primary_color := RGB_COLOR_OFF,
        secondary_color := RGB_COLOR_OFF, speed_ms := 1000, brightness := 0,
        repeatFlag := false }
  | RgbStatus.connecting => some
      { effect := RGB_EFFECT_BREATHE, primary_color := RGB_COLOR_BLUE,
        secondary_color := RGB_COLOR_OFF, speed_ms := 1000, brightness := 128,
        repeatFlag := true }
  | RgbStatus.wifiConnected => some
      { effect := RGB_EFFECT_BLINK, primary_color := RGB_COLOR_CYAN,
        secondary_color := RGB_COLOR_OFF, speed_ms := 500, brightness := 200,
        repeatFlag := true }
  | RgbStatus.mqttConnected => some
      { effect := RGB_EFFECT_SOLID, primary_color := RGB_COLOR_GREEN,
        secondary_color := RGB_COLOR_OFF, speed_ms := 5000, brightness := 255,
        repeatFlag := false }
  | RgbStatus.mqttRelayOn => some
      { effect := RGB_EFFECT_SOLID, primary_color := RGB_COLOR_GREEN,
        secondary_color := RGB_COLOR_OFF, speed_ms := 5000, brightness := 255,
        repeatFlag := false }
  | RgbStatus.mqttRelayOff => some
      { effect := RGB_EFFECT_SOLID, primary_color := RGB_COLOR_YELLOW,
        secondary_color := RGB_COLOR_OFF, speed_ms := 5000, brightness := 255,
        repeatFlag := false }
  | RgbStatus.error => some
      { effect := RGB_EFFECT_STROBE, primary_color := RGB_COLOR_RED,
        secondary_color := RGB_COLOR_OFF, speed_ms := 200, brightness := 255,
        repeatFlag := true }
  | RgbStatus.custom => none

/-- rgb_led_set_status (lines 208-270): table lookup then start_effect. -/
def rgb_led_set_status (spawnOk taskExits : Bool) (st : RgbStatus) (s : ManagerState) :
    ManagerState × EspErr :=
  match status_effect_config st with
  | none => (s, EspErr.invalidArg)
  | some cfg => rgb_led_start_effect spawnOk taskExits (some cfg) s

/-- Status chosen by rgb_led_set_mqtt_relay_status (lines 272-287); none
models the ESP_ERR_INVALID_STATE early return when mqtt is not connected. -/
def rgb_led_set_mqtt_relay_status_choice (mqtt_connected relay_on : Bool) : Option RgbStatus :=
  if mqtt_connected = false then none
  else some (if relay_on then RgbStatus.mqttRelayOn else RgbStatus.mqttRelayOff)

/-- Coarse status composed by update_system_status_led (esp-app.c lines
57-76): an MQTT-connected session branches only on the relay state (through
rgb_led_set_mqtt_relay_status with mqtt_connected = true); otherwise the
WiFi link decides. -/
def update_system_status_led_status (mqtt : MqttState) (wifiConnected : Bool)
    (relay : RelayState) : RgbStatus :=
  if mqtt = MqttState.connected then
    (rgb_led_set_mqtt_relay_status_choice true (relay = RelayState.on)).getD
      RgbStatus.disconnected
  else if wifiConnected then RgbStatus.wifiConnected
  else RgbStatus.disconnected

/-- Raw per-frame formula color of the integer-arithmetic kinds whose frame
color the effect_task switch builds by an explicit apply_brightness call on a
palette color: Solid writes its primary once at step 0 (lines 381-395), Blink
alternates primary/off on the step parity (lines 397-411), Strobe shows the
primary for 2 of every 10 steps (lines 441-450).  none for the other kinds
(their formulas fold brightness into the arithmetic, or use the float sin
envelope or esp_random). -/
def effect_kind_color (cfg : RgbEffectConfig) (step : Nat) : Option RgbColor :=
  if cfg.effect = RGB_EFFECT_SOLID then
    (if step = 0 then some cfg.primary_color else none)
  else if cfg.effect = RGB_EFFECT_BLINK then
    some (if step % 2 = 0 then cfg.primary_color else RGB_COLOR_OFF)
  else if cfg.effect = RGB_EFFECT_STROBE then
    some (if step % 10 < 2 then cfg.primary_color else RGB_COLOR_OFF)
  else none

/-- Color written to the pixel by one iteration of the effect_task switch
(rgb_led_manager.c lines 380-497), for the deterministic integer kinds:

* Solid: primary scaled by the config brightness, written only at step 0;
* Blink: primary or off by step parity, scaled by the config brightness;
* Rainbow: hsv of (step * 10) mod 360 (step is a uint32) at saturation 100
  and value equal to the config brightness, with no further scaling;
* Strobe: scaled primary for step mod 10 < 2, otherwise the off color
  (the else branch skips apply_brightness);
* FadeInOut: triangular brightness ramp over a 200-step period, the ramp
  value (a uint8_t) fed to apply_brightness;
* default switch branch (RainbowChase, ColorWipe, TheaterChase and
  out-of-range kinds): the off color.

Breathe and Pulse (floating-point sin envelope) and Fire and Sparkle
(esp_random) are not modelled and yield none; their code also never reads
global_brightness. -/
def effect_frame_color (cfg : RgbEffectConfig) (step : Nat) : Option RgbColor :=
  if cfg.effect = RGB_EFFECT_SOLID then
    (if step = 0 then some (apply_brightness cfg.primary_color cfg.brightness) else none)
  else if cfg.effect = RGB_EFFECT_BLINK then
    some (apply_brightness (if step % 2 = 0 then cfg.primary_color else RGB_COLOR_OFF)
      cfg.brightness)
  else if cfg.effect = RGB_EFFECT_RAINBOW then
    some (rgb_led_hsv_to_rgb (step * 10 % 4294967296 % 360) 100 cfg.brightness)
  else if cfg.effect = RGB_EFFECT_STROBE then
    some (if step % 10 < 2 then apply_brightness cfg.primary_color cfg.brightness
      else RGB_COLOR_OFF)
  else if cfg.effect = RGB_EFFECT_FADE_IN_OUT then
    (let fade_step := step % 200
     let brightness :=
       if fade_step < 100 then fade_step * cfg.brightness / 100 % 256
       else (200 - fade_step) * cfg.brightness / 100 % 256
     some (apply_brightness cfg.primary_color brightness))
  else if cfg.effect = RGB_EFFECT_BREATHE ∨ cfg.effect = RGB_EFFECT_PULSE ∨
    cfg.effect = RGB_EFFECT_FIRE ∨ cfg.effect = RGB_EFFECT_SPARKLE then
    none
  else some RGB_COLOR_OFF

/-- Pixel update of one loop iteration: apply the frame color when modelled;
an unmodelled (float or random) kind leaves the model pixel unconstrained and
is represented by keeping the old value; no theorem below reads the pixel
through such a frame. -/
def write_frame (cfg : RgbEffectConfig) (step : Nat) (s : ManagerState) : ManagerState :=
  { s with stripColor := (effect_frame_color cfg step).getD s.stripColor }

/-- While loop of effect_task (lines 376-512), fuel-indexed.  Returns the
state at loop exit, the final step counter (the number of rendered frames),
and true when the loop actually exited (false means fuel ran out first).
After rendering the frame the counter is incremented and, for a non-repeat
config, the loop ends once the counter exceeds 100 (lines 499-504).  The
cadence sleep has no state effect.  cfg is the task-local snapshot of
current_effect_config taken at spawn time. -/
def effect_loop (cfg : RgbEffectConfig) : Nat → Nat → ManagerState → ManagerState × Nat × Bool
  | 0, step, s => (s, step, false)
  | fuel + 1, step, s =>
    if s.effectRunning && s.ledStrip then
      let s1 := write_frame cfg step s
      let step1 := step + 1
      if !cfg.repeatFlag && decide (100 < step1) then
        ({ s1 with effectRunning := false }, step1, true)
      else effect_loop cfg fuel step1 s1
    else (s, step, true)

/-- Whole renderer task body: the loop from step 0 followed by the exit
epilogue (clear the pixel, drop the handle). -/
def effect_task_run (cfg : RgbEffectConfig) (fuel : Nat) (s : ManagerState) :
    ManagerState × Nat × Bool :=
  let r := effect_loop cfg fuel 0 s
  (task_natural_exit r.1, r.2.1, r.2.2)

/-- Byte strings: strcmp on the C buffers compares up to the first NUL, so
the relevant view of a payload copied by memcpy into a zeroed buffer is its
prefix before the first 0 byte. -/
def cstr (bs : List Nat) : List Nat := bs.takeWhile (fun b => b != 0)

/-- Bytes of the literal "on". -/
def strOn : List Nat := [111, 110]

/-- Bytes of the literal "off". -/
def strOff : List Nat := [111, 102, 102]

/-- relay_control_set_state (relay_control.c lines 33-44): the stored state
changes only when the gpio write succeeds. -/
def relay_control_set_state (gpioOk : Bool) (state cur : RelayState) : RelayState × EspErr :=
  if gpioOk then (state, EspErr.ok) else (cur, EspErr.invalidArg)

/-- MQTT_EVENT_DATA relay-command path of mqtt_event_handler (mqtt_client.c
lines 87-146) for a message on the relay command topic: payloads that are
empty or longer than 32 bytes are ignored; otherwise the payload is memcpy-ed
into a zeroed 33-byte buffer and strcmp-ed against "on" and "off" (hence the
cstr truncation); a recognized command that differs from the current relay
state is applied and, when the gpio write succeeds, the state string is
published on the relay/state topic.  Returns the new relay state and the
published payload, if any. -/
def mqtt_handle_relay_data (gpioOk : Bool) (payload : List Nat) (cur : RelayState) :
    RelayState × Option (List Nat) :=
  if payload.length = 0 ∨ 32 < payload.length then (cur, none)
  else
    let d := cstr payload
    let turn_on := d = strOn
    let turn_off := d = strOff
    if turn_on ∨ turn_off then
      let new_state := if turn_on then RelayState.on else RelayState.off
      if cur ≠ new_state then
        let result := relay_control_set_state gpioOk new_state cur
        if result.2 = EspErr.ok then (result.1, some (if turn_on then strOn else strOff))
        else (result.1, none)
      else (cur, none)
    else (cur, none)

/-- Zero-initialized effect config, as produced by the C initializer. -/
def cfgZero : RgbEffectConfig :=
  { effect := RGB_EFFECT_SOLID, primary_color := RGB_COLOR_OFF,
    secondary_color := RGB_COLOR_OFF, speed_ms := 0, brightness := 0,
    repeatFlag := false }

/-- State before rgb_led_manager_init succeeds: no strip handle. -/
def sUninit : ManagerState :=
  { ledStrip := false, effectTaskHandle := false, effectRunning := false,
    currentEffectConfig := cfgZero, globalBrightness := 255,
    stripColor := RGB_COLOR_OFF }

/-- Initialized idle state: strip present, no renderer. -/
def sReady : ManagerState :=
  { ledStrip := true, effectTaskHandle := false, effectRunning := false,
    currentEffectConfig := cfgZero, globalBrightness := 255,
    stripColor := RGB_COLOR_OFF }

/-- Initialized state with a renderer active. -/
def sRunning : ManagerState :=
  { ledStrip := true, effectTaskHandle := true, effectRunning := true,
    currentEffectConfig := cfgZero, globalBrightness := 255,
    stripColor := RGB_COLOR_OFF }

/-- Config whose kind index equals RGB_EFFECT_MAX, i.e. outside the closed
enumeration. -/
def cfgBadKind : RgbEffectConfig :=
  { effect := RGB_EFFECT_MAX, primary_color := RGB_COLOR_RED,
    secondary_color := RGB_COLOR_OFF, speed_ms := 100, brightness := 255,
    repeatFlag := true }

/-- Full-brightness red blink config. -/
def cfgBlinkRed : RgbEffectConfig :=
  { effect := RGB_EFFECT_BLINK, primary_color := RGB_COLOR_RED,
    secondary_color := RGB_COLOR_OFF, speed_ms := 500, brightness := 255,
    repeatFlag := true }

/-- One-shot (repeat = false) solid blue config, as in the startup effect of
app_main. -/
def cfgSolidOnce : RgbEffectConfig :=
  { effect := RGB_EFFECT_SOLID, primary_color := RGB_COLOR_BLUE,
    secondary_color := RGB_COLOR_OFF, speed_ms := 100, brightness := 20,
    repeatFlag := false }

/-- Frame color the claim C1 formula predicts: the kind formula color scaled
by the config brightness and then additionally by the global brightness. -/
def c1_claimed_color (cfg : RgbEffectConfig) (step gb : Nat) : Option RgbColor :=
  (effect_kind_color cfg step).map
    (fun c => apply_brightness (apply_brightness c cfg.brightness) gb)

theorem apply_brightness_off (b : Nat) : apply_brightness RGB_COLOR_OFF b = RGB_COLOR_OFF := by
  unfold apply_brightness RGB_COLOR_OFF
  split_ifs <;> simp

theorem write_frame_ledStrip (cfg : RgbEffectConfig) (step : Nat) (s : ManagerState) :
    (write_frame cfg step s).ledStrip = s.ledStrip := rfl

theorem write_frame_effectRunning (cfg : RgbEffectConfig) (step : Nat) (s : ManagerState) :
    (write_frame cfg step s).effectRunning = s.effectRunning := rfl

theorem write_frame_effectTaskHandle (cfg : RgbEffectConfig) (step : Nat) (s : ManagerState) :
    (write_frame cfg step s).effectTaskHandle = s.effectTaskHandle := rfl

theorem effect_loop_ledStrip (cfg : RgbEffectConfig) :
    ∀ (fuel step : Nat) (s : ManagerState),
      (effect_loop cfg fuel step s).1.ledStrip = s.ledStrip := by
  intro fuel
  induction fuel with
  | zero => intro step s; rfl
  | succ n ih =>
    intro step s
    simp only [effect_loop]
    by_cases hc : (s.effectRunning && s.ledStrip) = true
    · rw [if_pos hc]
      by_cases hb : (!cfg.repeatFlag && decide (100 < step + 1)) = true
      · rw [if_pos hb]; rfl
      · rw [if_neg hb, ih]; rfl
    · rw [if_neg hc]

theorem effect_loop_effectTaskHandle (cfg : RgbEffectConfig) :
    ∀ (fuel step : Nat) (s : ManagerState),
      (effect_loop cfg fuel step s).1.effectTaskHandle = s.effectTaskHandle := by
  intro fuel
  induction fuel with
  | zero => intro step s; rfl
  | succ n ih =>
    intro step s
    simp only [effect_loop]
    by_cases hc : (s.effectRunning && s.ledStrip) = true
    · rw [if_pos hc]
      by_cases hb : (!cfg.repeatFlag && decide (100 < step + 1)) = true
      · rw [if_pos hb]; rfl
      · rw [if_neg hb, ih]; rfl
    · rw [if_neg hc]

theorem effect_loop_nonrepeat (cfg : RgbEffectConfig) (hr : cfg.repeatFlag = false) :
    ∀ (fuel step : Nat) (s : ManagerState),
      s.effectRunning = true → s.ledStrip = true → step ≤ 100 → 101 ≤ fuel + step →
      (effect_loop cfg fuel step s).2.1 = 101
      ∧ (effect_loop cfg fuel step s).2.2 = true
      ∧ (effect_loop cfg fuel step s).1.effectRunning = false := by
  intro fuel
  induction fuel with
  | zero => intro step s h1 h2 h3 h4; omega
  | succ n ih =>
    intro step s h1 h2 h3 h4
    simp only [effect_loop]
    have hc : (s.effectRunning && s.ledStrip) = true := by rw [h1, h2]; rfl
    rw [if_pos hc]
    by_cases hb : step = 100
    · have ht : (!cfg.repeatFlag && decide (100 < step + 1)) = true := by
        rw [hr, hb]; rfl
      rw [if_pos ht]
      refine ⟨?_, rfl, rfl⟩
      show step + 1 = 101
      omega
    · have hlt : step < 100 := lt_of_le_of_ne h3 hb
      have hf : (!cfg.repeatFlag && decide (100 < step + 1)) = false := by
        rw [hr]
        simp only [Bool.not_false, Bool.true_and, decide_eq_false_iff_not]
        omega
      rw [if_neg (by rw [hf]; exact Bool.false_ne_true)]
      exact ih (step + 1) (write_frame cfg step s)
        (by rw [write_frame_effectRunning]; exact h1)
        (by rw [write_frame_ledStrip]; exact h2)
        (by omega) (by omega)

/-- Claim C3 (status: code_bug).  The 43-wide fixed-point sectors of
rgb_led_hsv_to_rgb assume a 0-255 hue space, but the function is documented
and driven (rainbow effect, hue 0-359) over 0-359, so the conversion is not
continuous there: at saturation 100 and value 100 the step from one hue to
the next inside a sector moves a channel by at most about 2 (358 to 359 moves
blue from 87 to 85, 0 to 1 moves green from 60 to 61), yet the wraparound
from hue 359 to hue 0 drops blue from 85 to 60 (a 25-point seam), and the
region-5 to region-6 boundary at hue 257 to 258 jumps blue from 61 to 99 (a
38-point seam).  This contradicts the required continuity across wraparound
and at sector boundaries. -/
theorem c3_hsv_seam :
    rgb_led_hsv_to_rgb 0 100 100 = ⟨100, 60, 60⟩
    ∧ rgb_led_hsv_to_rgb 1 100 100 = ⟨100, 61, 60⟩
    ∧ rgb_led_hsv_to_rgb 358 100 100 = ⟨100, 60, 87⟩
    ∧ rgb_led_hsv_to_rgb 359 100 100 = ⟨100, 60, 85⟩
    ∧ rgb_led_hsv_to_rgb 257 100 100 = ⟨100, 60, 61⟩
    ∧ rgb_led_hsv_to_rgb 258 100 100 = ⟨100, 60, 99⟩
    ∧ (rgb_led_hsv_to_rgb 359 100 100).blue - (rgb_led_hsv_to_rgb 0 100 100).blue = 25
    ∧ (rgb_led_hsv_to_rgb 258 100 100).blue - (rgb_led_hsv_to_rgb 257 100 100).blue = 38
    ∧ (rgb_led_hsv_to_rgb 358 100 100).blue - (rgb_led_hsv_to_rgb 359 100 100).blue ≤ 2 := by
  decide

/-- Claim C8 (status: confirmed).  For uint8_t input colors, blending with
factor 0 returns exactly the first color and blending with factor 255 returns
exactly the second, channel by channel, despite the truncating division. -/
theorem c8_blend_endpoints : ∀ a b : RgbColor, ColorInRange a → ColorInRange b →
    rgb_led_blend_colors a b 0 = a ∧ rgb_led_blend_colors a b 255 = b := by
  rintro ⟨r1, g1, b1⟩ ⟨r2, g2, b2⟩ h1 h2
  unfold ColorInRange at h1 h2
  obtain ⟨hr1, hg1, hb1⟩ := h1
  obtain ⟨hr2, hg2, hb2⟩ := h2
  simp only at hr1 hg1 hb1 hr2 hg2 hb2
  constructor <;>
    · unfold rgb_led_blend_colors
      simp only [RgbColor.mk.injEq]
      refine ⟨?_, ?_, ?_⟩ <;> omega

theorem c8_blend_endpoints_witness :
    rgb_led_blend_colors RGB_COLOR_RED RGB_COLOR_CYAN 0 = RGB_COLOR_RED
    ∧ rgb_led_blend_colors RGB_COLOR_RED RGB_COLOR_CYAN 255 = RGB_COLOR_CYAN :=
  c8_blend_endpoints RGB_COLOR_RED RGB_COLOR_CYAN (by decide) (by decide)

/-- Claim C7 (status: confirmed).  When the MQTT session is connected,
update_system_status_led composes the coarse status from the relay state
alone, regardless of the WiFi link state: relay on yields the mqttRelayOn
status, whose canonical effect is solid green, relay off yields mqttRelayOff,
whose canonical effect is solid yellow. -/
theorem c7_connected_relay_status :
    (∀ (wifiConnected : Bool) (relay : RelayState),
      update_system_status_led_status MqttState.connected wifiConnected relay =
        (if relay = RelayState.on then RgbStatus.mqttRelayOn else RgbStatus.mqttRelayOff))
    ∧ (status_effect_config RgbStatus.mqttRelayOn).map
        (fun c => (c.effect, c.primary_color)) = some (RGB_EFFECT_SOLID, RGB_COLOR_GREEN)
    ∧ (status_effect_config RgbStatus.mqttRelayOff).map
        (fun c => (c.effect, c.primary_color)) = some (RGB_EFFECT_SOLID, RGB_COLOR_YELLOW) := by
  refine ⟨?_, by decide, by decide⟩
  intro w r
  cases r <;> rfl

/-- Claim C1 counterexample (status: corrected).  The renderer does not apply
GlobalBrightness: a full-brightness red blink frame with global brightness 0
is written as pure red, while the claimed formula (kind color scaled by the
config brightness and then by the global brightness) predicts the off
color. -/
theorem c1_counterexample :
    effect_frame_color cfgBlinkRed 0 = some RGB_COLOR_RED
    ∧ c1_claimed_color cfgBlinkRed 0 0 = some RGB_COLOR_OFF
    ∧ effect_frame_color cfgBlinkRed 0 ≠ c1_claimed_color cfgBlinkRed 0 0 := by
  decide

/-- Claim C1 amended (status: corrected).  The effect renderer scales the
per-frame kind color by the configuration brightness only; GlobalBrightness
never enters the render path (effect_task reads only
current_effect_config.brightness) and is applied solely by the direct
rgb_led_set_color operation. -/
theorem c1_render_brightness_amended :
    (∀ (cfg : RgbEffectConfig) (step : Nat) (c : RgbColor),
      effect_kind_color cfg step = some c →
      effect_frame_color cfg step = some (apply_brightness c cfg.brightness))
    ∧ (∀ (c : RgbColor) (s : ManagerState), s.ledStrip = true →
      rgb_led_set_color c s =
        ({ s with stripColor := apply_brightness c s.globalBrightness }, EspErr.ok)) := by
  constructor
  · intro cfg step c h
    simp only [effect_kind_color, effect_frame_color, RGB_EFFECT_SOLID, RGB_EFFECT_BLINK,
      RGB_EFFECT_STROBE, RGB_EFFECT_RAINBOW, RGB_EFFECT_FADE_IN_OUT, RGB_EFFECT_BREATHE,
      RGB_EFFECT_PULSE, RGB_EFFECT_FIRE, RGB_EFFECT_SPARKLE] at h ⊢
    split_ifs at h ⊢ <;> simp_all
    all_goals
      first
        | omega
        | (rw [← h]; exact (apply_brightness_off cfg.brightness).symm)
  · intro c s hs
    simp [rgb_led_set_color, hs]

theorem c1_render_brightness_amended_witness :
    effect_frame_color cfgBlinkRed 0 =
      some (apply_brightness RGB_COLOR_RED cfgBlinkRed.brightness)
    ∧ rgb_led_set_color RGB_COLOR_RED sReady =
      ({ sReady with stripColor := apply_brightness RGB_COLOR_RED sReady.globalBrightness },
        EspErr.ok) :=
  ⟨c1_render_brightness_amended.1 cfgBlinkRed 0 RGB_COLOR_RED (by decide),
    c1_render_brightness_amended.2 RGB_COLOR_RED sReady (by decide)⟩

/-- Claim C2 counterexample (status: corrected).  rgb_led_start_effect never
validates the kind index: with the peripheral present, a config whose effect
field equals RGB_EFFECT_MAX (outside the closed enumeration) is accepted with
ESP_OK instead of failing with InvalidArgument. -/
theorem c2_counterexample :
    RGB_EFFECT_MAX ≤ cfgBadKind.effect
    ∧ (rgb_led_start_effect true true (some cfgBadKind) sReady).2 = EspErr.ok
    ∧ (rgb_led_start_effect true true (some cfgBadKind) sReady).2 ≠ EspErr.invalidArg := by
  decide

/-- Claim C2 amended (status: corrected).  rgb_led_start_effect fails with
InvalidArgument exactly when the config pointer is NULL or the peripheral is
unavailable, and such a failing call leaves the state unchanged (both checks
precede the teardown of any running effect); the kind index is never
validated, so out-of-enumeration kinds are accepted (the renderer shows them
as the off color, see effect_frame_color). -/
theorem c2_start_effect_invalid_arg :
    ∀ (spawnOk taskExits : Bool) (config : Option RgbEffectConfig) (s : ManagerState),
      ((rgb_led_start_effect spawnOk taskExits config s).2 = EspErr.invalidArg ↔
        config = none ∨ s.ledStrip = false)
      ∧ (config = none ∨ s.ledStrip = false →
        rgb_led_start_effect spawnOk taskExits config s = (s, EspErr.invalidArg)) := by
  intro spawnOk taskExits config s
  cases config with
  | none => simp [rgb_led_start_effect]
  | some c =>
    by_cases hs : s.ledStrip = false
    · simp [rgb_led_start_effect, hs]
    · simp only [rgb_led_start_effect, hs, if_false]
      by_cases hp : spawnOk = true <;> simp_all

theorem c2_start_effect_invalid_arg_witness :
    rgb_led_start_effect true true (some cfgBlinkRed) sUninit = (sUninit, EspErr.invalidArg) :=
  (c2_start_effect_invalid_arg true true (some cfgBlinkRed) sUninit).2 (Or.inr (by decide))

/-- Claim C4 counterexample (status: corrected).  With the peripheral not
initialized, not every operation returns the Unavailable error
(ESP_ERR_INVALID_STATE): set_brightness succeeds with ESP_OK, start_effect
fails with InvalidArgument instead, and stop_effect returns ESP_OK. -/
theorem c4_counterexample :
    (rgb_led_set_brightness 7 sUninit).2 = EspErr.ok
    ∧ (rgb_led_set_brightness 7 sUninit).2 ≠ EspErr.invalidState
    ∧ (rgb_led_start_effect true true (some cfgBlinkRed) sUninit).2 ≠ EspErr.invalidState
    ∧ (rgb_led_stop_effect true sUninit).2 ≠ EspErr.invalidState := by
  decide

/-- Claim C4 amended (status: corrected).  When the peripheral is not
initialized: set_color, set_color_brightness and off are no-ops returning
Unavailable (ESP_ERR_INVALID_STATE); start_effect and set_status reject with
InvalidArgument instead; stop_effect returns success; and set_brightness
still records the new global brightness and returns success. -/
theorem c4_uninitialized_behavior :
    ∀ (c : RgbColor) (b : Nat) (stop spawnOk taskExits : Bool) (cfg : RgbEffectConfig)
      (st : RgbStatus) (s : ManagerState), s.ledStrip = false →
      rgb_led_set_color c s = (s, EspErr.invalidState)
      ∧ rgb_led_set_color_brightness c b s = (s, EspErr.invalidState)
      ∧ rgb_led_off s = (s, EspErr.invalidState)
      ∧ rgb_led_start_effect spawnOk taskExits (some cfg) s = (s, EspErr.invalidArg)
      ∧ (rgb_led_set_status spawnOk taskExits st s).2 = EspErr.invalidArg
      ∧ (rgb_led_stop_effect stop s).2 = EspErr.ok
      ∧ rgb_led_set_brightness b s = ({ s with globalBrightness := b }, EspErr.ok) := by
  intro c b stop spawnOk taskExits cfg st s h
  refine ⟨?_, ?_, ?_, ?_, ?_, ?_, rfl⟩
  · simp [rgb_led_set_color, h]
  · simp [rgb_led_set_color_brightness, h]
  · simp [rgb_led_off, rgb_led_set_color, h]
  · simp [rgb_led_start_effect, h]
  · cases st <;> simp [rgb_led_set_status, status_effect_config, rgb_led_start_effect, h]
  · unfold rgb_led_stop_effect
    split_ifs <;> rfl

theorem c4_uninitialized_behavior_witness :
    rgb_led_set_color RGB_COLOR_RED sUninit = (sUninit, EspErr.invalidState)
    ∧ rgb_led_off sUninit = (sUninit, EspErr.invalidState)
    ∧ rgb_led_set_brightness 7 sUninit = ({ sUninit with globalBrightness := 7 }, EspErr.ok) := by
  have h := c4_uninitialized_behavior RGB_COLOR_RED 7 true true true cfgBlinkRed
    RgbStatus.error sUninit (by decide)
  exact ⟨h.1, h.2.2.1, h.2.2.2.2.2.2⟩

/-- Claim C5 (status: confirmed).  On every renderer termination the pixel is
cleared to the off color and the shared task handle is marked absent: the
renderer exit epilogue (effect_task lines 514-518) does both whenever the
strip is present, and rgb_led_stop_effect called with an active renderer does
both whether the task exits during the bounded wait or is force deleted,
returning success. -/
theorem c5_termination_clears :
    (∀ (cfg : RgbEffectConfig) (fuel : Nat) (s : ManagerState), s.ledStrip = true →
      (effect_task_run cfg fuel s).1.effectTaskHandle = false
      ∧ (effect_task_run cfg fuel s).1.stripColor = RGB_COLOR_OFF)
    ∧ (∀ (taskExits : Bool) (s : ManagerState),
      s.ledStrip = true → s.effectTaskHandle = true →
      (rgb_led_stop_effect taskExits s).1.effectTaskHandle = false
      ∧ (rgb_led_stop_effect taskExits s).1.stripColor = RGB_COLOR_OFF
      ∧ (rgb_led_stop_effect taskExits s).2 = EspErr.ok) := by
  constructor
  · intro cfg fuel s hs
    unfold effect_task_run task_natural_exit
    have hstrip : (effect_loop cfg fuel 0 s).1.ledStrip = true := by
      rw [effect_loop_ledStrip]; exact hs
    exact ⟨rfl, by simp [hstrip]⟩
  · intro taskExits s hs hh
    cases taskExits <;> simp [rgb_led_stop_effect, task_natural_exit, hs, hh]

theorem c5_termination_clears_witness :
    (effect_task_run cfgSolidOnce 101 sRunning).1.stripColor = RGB_COLOR_OFF
    ∧ (rgb_led_stop_effect false sRunning).1.effectTaskHandle = false :=
  ⟨(c5_termination_clears.1 cfgSolidOnce 101 sRunning (by decide)).2,
    (c5_termination_clears.2 false sRunning (by decide) (by decide)).1⟩

/-- Claim C6 (status: confirmed).  For a non-repeating config the render loop
is terminating: absent any external stop (the loop recursion mutates no stop
flag), it reaches its natural exit within any fuel bound of at least 101,
having rendered exactly 101 frames (steps 0 through 100; the loop breaks once
the incremented counter exceeds 100), clears the running flag, and the task
epilogue releases the handle. -/
theorem c6_nonrepeat_terminates :
    ∀ (cfg : RgbEffectConfig) (fuel : Nat) (s : ManagerState),
      cfg.repeatFlag = false → s.effectRunning = true → s.ledStrip = true → 101 ≤ fuel →
      (effect_task_run cfg fuel s).2.2 = true
      ∧ (effect_task_run cfg fuel s).2.1 = 101
      ∧ (effect_task_run cfg fuel s).1.effectRunning = false
      ∧ (effect_task_run cfg fuel s).1.effectTaskHandle = false := by
  intro cfg fuel s hr h1 h2 hf
  have h := effect_loop_nonrepeat cfg hr fuel 0 s h1 h2 (by omega) (by omega)
  unfold effect_task_run task_natural_exit
  exact ⟨h.2.1, h.1, h.2.2, rfl⟩

theorem c6_nonrepeat_terminates_witness :
    (effect_task_run cfgSolidOnce 101 sRunning).2.1 = 101
    ∧ (effect_task_run cfgSolidOnce 101 sRunning).1.effectTaskHandle = false := by
  have h := c6_nonrepeat_terminates cfgSolidOnce 101 sRunning (by decide) (by decide)
    (by decide) (by decide)
  exact ⟨h.2.1, h.2.2.2⟩

/-- Claim C9 (status: confirmed).  rgb_led_stop_effect is idempotent: with no
active renderer it changes nothing and returns success, any call leaves the
handle absent, and hence a second consecutive call is always a no-op
returning success. -/
theorem c9_stop_effect_idempotent :
    ∀ (t1 t2 : Bool) (s : ManagerState),
      (s.effectTaskHandle = false → rgb_led_stop_effect t1 s = (s, EspErr.ok))
      ∧ (rgb_led_stop_effect t1 s).1.effectTaskHandle = false
      ∧ rgb_led_stop_effect t2 (rgb_led_stop_effect t1 s).1 =
          ((rgb_led_stop_effect t1 s).1, EspErr.ok) := by
  have hnone : ∀ (t : Bool) (s2 : ManagerState), s2.effectTaskHandle = false →
      rgb_led_stop_effect t s2 = (s2, EspErr.ok) := by
    intro t s2 h
    simp [rgb_led_stop_effect, h]
  intro t1 t2 s
  have hpost : (rgb_led_stop_effect t1 s).1.effectTaskHandle = false := by
    by_cases hh : s.effectTaskHandle = true
    · cases t1 <;> simp [rgb_led_stop_effect, task_natural_exit, hh] <;> split_ifs <;> rfl
    · have h0 : s.effectTaskHandle = false := by simpa using hh
      rw [hnone t1 s h0]
      exact h0
  exact ⟨hnone t1 s, hpost, hnone t2 _ hpost⟩

theorem c9_stop_effect_idempotent_witness :
    rgb_led_stop_effect true sReady = (sReady, EspErr.ok) :=
  (c9_stop_effect_idempotent true true sReady).1 (by decide)

/-- Claim C10 counterexample (status: corrected).  The handler compares the
payload with strcmp on a NUL-padded buffer, so a payload that is not exactly
the two bytes of "on" but begins with "on" followed by a NUL byte (here the
four bytes o n NUL x) is treated as the on command: from relay off it turns
the relay on and publishes a state confirmation, though the claim requires
any payload other than exactly "on" or "off" to change nothing and publish
nothing. -/
theorem c10_counterexample :
    (mqtt_handle_relay_data true [111, 110, 0, 120] RelayState.off).1 = RelayState.on
    ∧ (mqtt_handle_relay_data true [111, 110, 0, 120] RelayState.off).2 = some strOn
    ∧ [111, 110, 0, 120] ≠ strOn ∧ [111, 110, 0, 120] ≠ strOff := by
  decide

/-- Claim C10 amended (status: corrected).  For a message on the relay
command topic, the relay state changes only when the payload bytes up to the
first NUL spell exactly "on" or "off" (strcmp semantics on the copied
buffer); a payload whose NUL-truncated form is neither leaves the state
unchanged and publishes nothing, and a recognized command equal to the
current relay state also leaves the state untouched and publishes
nothing. -/
theorem c10_relay_command :
    ∀ (gpioOk : Bool) (payload : List Nat) (cur : RelayState),
      (cstr payload ≠ strOn ∧ cstr payload ≠ strOff →
        mqtt_handle_relay_data gpioOk payload cur = (cur, none))
      ∧ (cstr payload = strOn ∧ cur = RelayState.on →
        mqtt_handle_relay_data gpioOk payload cur = (cur, none))
      ∧ (cstr payload = strOff ∧ cur = RelayState.off →
        mqtt_handle_relay_data gpioOk payload cur = (cur, none))
      ∧ ((mqtt_handle_relay_data gpioOk payload cur).1 ≠ cur →
        cstr payload = strOn ∨ cstr payload = strOff) := by
  intro gpioOk payload cur
  unfold mqtt_handle_relay_data relay_control_set_state
  by_cases hlen : payload.length = 0 ∨ 32 < payload.length <;>
    by_cases hon : cstr payload = strOn <;>
    by_cases hoff : cstr payload = strOff <;>
    cases cur <;> cases gpioOk <;>
    simp_all [strOn, strOff]

theorem c10_relay_command_witness :
    mqtt_handle_relay_data true [120] RelayState.off = (RelayState.off, none)
    ∧ mqtt_handle_relay_data true [111, 110] RelayState.on = (RelayState.on, none) :=
  ⟨(c10_relay_command true [120] RelayState.off).1 (by decide),
    (c10_relay_command true [111, 110] RelayState.on).2.1 (by decide)⟩

end EspMqtt
